import Mathlib

/-!
Verification development for the JunctionRelay collector plugin system:
a shallow embedding of the protocol constants, the plugin-side JSON-RPC
dispatcher (`CollectorPlugin`), the host-side supervisor (`PluginHost`),
and the plugin discovery scan (`discoverPlugins`), with theorems about
their behaviour.
-/

-- ============================================================================
-- Protocol constants (packages/protocol: JSON_RPC_ERRORS)
-- ============================================================================

namespace JSON_RPC_ERRORS

def PARSE_ERROR : Int := -32700

def INVALID_REQUEST : Int := -32600

def METHOD_NOT_FOUND : Int := -32601

def INVALID_PARAMS : Int := -32602

def INTERNAL_ERROR : Int := -32603

def SERVER_ERROR : Int := -32000

end JSON_RPC_ERRORS

-- ============================================================================
-- Protocol data shapes (packages/protocol/src/index.ts)
-- ============================================================================

/-- A JSON-RPC id: `number | string` in the protocol. -/
inductive JsonId where
  | num (n : Int)
  | str (s : String)
deriving DecidableEq, Repr

/-- JsonRpcError: `{ code: number, message: string }` (the optional `data`
field is never produced by the code under study and is omitted). -/
structure JsonRpcError where
  code : Int
  message : String
deriving DecidableEq, Repr

structure CollectorFieldRequirements where
  requiresUrl : Bool
  requiresAccessToken : Bool
  urlLabel : Option String := none
  urlPlaceholder : Option String := none
  accessTokenLabel : Option String := none
  accessTokenPlaceholder : Option String := none
  urlValidationPattern : Option String := none
  accessTokenValidationPattern : Option String := none
deriving DecidableEq, Repr

structure CollectorDefaults where
  name : String
  url : Option String := none
  pollRate : Option Nat := none
  sendRate : Option Nat := none
deriving DecidableEq, Repr

structure SetupStep where
  title : String
  body : String
deriving DecidableEq, Repr

structure CollectorMetadata where
  collectorName : String
  displayName : String
  description : String
  category : String
  emoji : String
  fields : CollectorFieldRequirements
  defaults : CollectorDefaults
  setupInstructions : List SetupStep
  setupNote : Option String := none
  supportsPersistentSession : Option Bool := none
  requiresService : Option Bool := none
  requiredServiceType : Option String := none
deriving DecidableEq, Repr

/-- SensorResult. The protocol declares nine required fields keyed by
`uniqueSensorKey`. The extra `externalId` field is NOT part of the
protocol's `SensorResult`; it is carried here as an `Option` because at
runtime a (legacy) sensor object may or may not have it, and
`CollectorPlugin.dispatch` reads `s.externalId` — reading an absent field
in JavaScript yields `undefined`, modelled as `none`. -/
structure Sensor where
  uniqueSensorKey : String
  name : String
  value : String
  unit : String
  category : String
  decimalPlaces : Int
  sensorType : String
  componentName : String
  sensorTag : String
  externalId : Option String := none
deriving DecidableEq, Repr

structure FetchSensorsResult where
  sensors : List Sensor
deriving DecidableEq, Repr

/-- The JSON params object of a request, restricted to the fields the code
under study reads. A field absent from the JSON object is `none`
(JavaScript `undefined`). The casts `params as ConfigureParams` and
`params as FetchSelectedSensorsParams` in the dispatcher are identity
reinterpretations of this same object. -/
structure RawParams where
  collectorId : Option Int := none
  url : Option String := none
  accessToken : Option String := none
  decimalPlaces : Option Int := none
  sensorIds : Option (List String) := none
deriving DecidableEq, Repr

/-- The initial `currentConfig` of a `CollectorPlugin`:
`{ collectorId: 0 }`. -/
def initialCurrentConfig : RawParams := { collectorId := some 0 }

-- ============================================================================
-- Plugin-side dispatcher (CollectorPlugin, src/unnamed/part_003)
-- ============================================================================

/-- A value thrown by a handler (or by the dispatcher itself): JavaScript
error objects carry a `message` and possibly a numeric `code`.
`handleLine` maps a missing numeric code to `SERVER_ERROR`. -/
structure JsError where
  code : Option Int := none
  message : String
deriving DecidableEq, Repr

/-- The untyped value a dispatch produces as `result`. -/
inductive JsValue where
  | metadata (m : CollectorMetadata)
  | sensorsResult (sensors : List Sensor)
  | simpleSuccess
  | health (uptime : Nat)
  | handlerValue (tag : String)
deriving DecidableEq, Repr

/-- CollectorPluginConfig: the plugin metadata plus one optional handler
per method. Handlers are modelled as total functions into `Except`
(a rejected promise / thrown error is `Except.error`). -/
structure CollectorPluginConfig where
  metadata : CollectorMetadata
  configure : Option (RawParams → Except JsError JsValue) := none
  fetchSensors : Option (RawParams → Except JsError FetchSensorsResult) := none
  fetchSelectedSensors : Option (RawParams → RawParams → Except JsError FetchSensorsResult) := none
  testConnection : Option (RawParams → Except JsError JsValue) := none
  startSession : Option (RawParams → Except JsError JsValue) := none
  stopSession : Option (RawParams → Except JsError JsValue) := none

/-- A parsed request envelope: `JSON.parse` may produce an object lacking
any of the fields, so each is optional. -/
structure JsonRpcRequestEnv where
  jsonrpc : Option String := none
  method : Option String := none
  params : Option RawParams := none
  id : Option JsonId := none
deriving DecidableEq, Repr

/-- A response envelope as written by `writeResponse`. `id` is `none` when
the request had no `id` (`JSON.stringify` drops an `undefined` field). -/
structure JsonRpcResponseEnv where
  id : Option JsonId
  result : Option JsValue := none
  error : Option JsonRpcError := none
deriving DecidableEq, Repr

/-- One physical line received on standard input: either `JSON.parse`
threw, or it yielded an envelope object. -/
inductive InputLine where
  | parseFail
  | parsed (req : JsonRpcRequestEnv)

/-- Template-literal rendering of the `method` value in
`Method not found: ${method}`; a missing field renders as `undefined`. -/
def methodText : Option String → String
  | some m => m
  | none => "undefined"

/-- The filter in the `fetchSelectedSensors` automatic fallback:
`all.sensors.filter((s) => selectedParams.sensorIds.includes(s.externalId))`.
If `sensorIds` is absent and the sensor list is non-empty, the first
callback invocation throws a TypeError (reading `.includes` of
`undefined`); on an empty list the callback never runs. `includes` on a
list of strings never matches an `undefined` field. -/
def selectedFallback (all : List Sensor) (ids? : Option (List String)) :
    Except JsError (List Sensor) :=
  match all, ids? with
  | [], _ => Except.ok []
  | _ :: _, none =>
      Except.error { code := none, message := "TypeError: sensorIds is undefined" }
  | l, some ids =>
      Except.ok (l.filter (fun s =>
        match s.externalId with
        | some e => ids.contains e
        | none => false))

/-- CollectorPlugin.dispatch (src/unnamed/part_003 lines 99-162).
Takes the current configuration, the uptime in seconds
(`Math.floor((Date.now() - startTime) / 1000)` precomputed), the request
method and params; returns the result-or-thrown-error together with the
new `currentConfig` (mutated only by `configure`). -/
def dispatch (cfg : CollectorPluginConfig) (current : RawParams) (uptime : Nat)
    (method : Option String) (params : RawParams) :
    Except JsError JsValue × RawParams :=
  match method with
  | some "getMetadata" => (Except.ok (JsValue.metadata cfg.metadata), current)
  | some "configure" =>
      match cfg.configure with
      | some h => (h params, params)
      | none => (Except.ok JsValue.simpleSuccess, params)
  | some "fetchSensors" =>
      match cfg.fetchSensors with
      | some h => ((h current).map (fun r => JsValue.sensorsResult r.sensors), current)
      | none => (Except.ok (JsValue.sensorsResult []), current)
  | some "fetchSelectedSensors" =>
      match cfg.fetchSelectedSensors with
      | some h => ((h current params).map (fun r => JsValue.sensorsResult r.sensors), current)
      | none =>
          match cfg.fetchSensors with
          | some h =>
              (match h current with
               | Except.error e => Except.error e
               | Except.ok all =>
                   (selectedFallback all.sensors params.sensorIds).map JsValue.sensorsResult,
               current)
          | none => (Except.ok (JsValue.sensorsResult []), current)
  | some "testConnection" =>
      match cfg.testConnection with
      | some h => (h current, current)
      | none => (Except.ok JsValue.simpleSuccess, current)
  | some "startSession" =>
      match cfg.startSession with
      | some h => (h current, current)
      | none => (Except.ok JsValue.simpleSuccess, current)
  | some "stopSession" =>
      match cfg.stopSession with
      | some h => (h current, current)
      | none => (Except.ok JsValue.simpleSuccess, current)
  | some "healthCheck" => (Except.ok (JsValue.health uptime), current)
  | m =>
      (Except.error { code := some JSON_RPC_ERRORS.METHOD_NOT_FOUND,
                      message := "Method not found: " ++ methodText m }, current)

/-- CollectorPlugin.handleLine (src/unnamed/part_003 lines 63-97).
On a parse failure it writes a parse-error envelope with `id: 0`.
Otherwise it dispatches `request.method` with `request.params ?? {}` and
writes exactly one response carrying `request.id`: the `result` on
success, or an `error` whose code is the thrown error's numeric `code`
when present, else `SERVER_ERROR`. Returns the new `currentConfig` and
the list of response envelopes written to standard output. -/
def handleLine (cfg : CollectorPluginConfig) (current : RawParams) (uptime : Nat) :
    InputLine → RawParams × List JsonRpcResponseEnv
  | InputLine.parseFail =>
      (current, [{ id := some (JsonId.num 0),
                   error := some { code := JSON_RPC_ERRORS.PARSE_ERROR,
                                   message := "Parse error" } }])
  | InputLine.parsed req =>
      match dispatch cfg current uptime req.method (req.params.getD {}) with
      | (Except.ok v, c) => (c, [{ id := req.id, result := some v }])
      | (Except.error e, c) =>
          (c, [{ id := req.id,
                 error := some { code := e.code.getD JSON_RPC_ERRORS.SERVER_ERROR,
                                 message := e.message } }])

/-- The closed method set of the protocol (`CollectorMethod`). -/
def knownMethods : List String :=
  ["getMetadata", "configure", "testConnection", "fetchSensors",
   "fetchSelectedSensors", "startSession", "stopSession", "healthCheck"]

/-- Modelled from the spec: the `fetchSelectedSensors` fallback is
described as returning "the subset of sensors whose `uniqueSensorKey`
appears in `params.sensorIds`", preserving the original order. This
definition follows the spec's words, to be compared with the
`selectedFallback` filter translated from the source. -/
def specSelectedSensors (all : List Sensor) (sensorIds : List String) : List Sensor :=
  all.filter (fun s => sensorIds.contains s.uniqueSensorKey)

-- ============================================================================
-- Host-side supervisor (PluginHost, packages/host)
-- ============================================================================

/-- PluginHostOptions after constructor defaulting:
`timeout ?? 30000`, `maxRestarts ?? 3`, `restartDelayMs ?? 1000`. -/
structure HostOptions where
  timeout : Nat
  maxRestarts : Nat
  restartDelayMs : Nat
deriving DecidableEq, Repr

/-- The defaulting performed by the `PluginHost` constructor. -/
def resolveOptions (timeout? maxRestarts? restartDelayMs? : Option Nat) : HostOptions :=
  { timeout := timeout?.getD 30000,
    maxRestarts := maxRestarts?.getD 3,
    restartDelayMs := restartDelayMs?.getD 1000 }

/-- Mutable supervisor state: the `stopped` flag, the restart counter, the
memoized last `configure` params, the keys of the `pending` map, and the
`logs` array. (`nextId` and the process handle are not needed by the
properties below.) -/
structure HostState where
  stopped : Bool := false
  restartCount : Nat := 0
  lastConfigureParams : Option RawParams := none
  pending : List JsonId := []
  logs : List String := []
  opts : HostOptions := resolveOptions none none none
deriving DecidableEq, Repr

/-- Observable actions the supervisor performs: user callbacks
(`onExit`, `onRestart`, `onMaxRestartsExceeded`, `onLog`), settling a
pending request (which also clears its timer), respawning the child
(a `spawnProcess` call), and replaying the stored configuration
(a `configure` call on the fresh child). -/
inductive HostEffect where
  | onExitCb (code : Option Int)
  | rejectPending (id : JsonId) (message : String)
  | resolvePending (id : JsonId)
  | onRestartCb (attempt : Nat)
  | onLogCb (message : String)
  | respawn
  | replayConfigure (p : RawParams)
  | onMaxRestartsExceededCb
deriving DecidableEq, Repr

/-- PluginHost.log: push the message onto `logs` and invoke the `onLog`
callback with it, both unchanged. -/
def hostLog (st : HostState) (message : String) : HostState × List HostEffect :=
  ({ st with logs := st.logs ++ [message] }, [HostEffect.onLogCb message])

/-- The stderr reader attached in `spawnProcess`:
`this.stderrReader.on('line', (line) => this.log(line))`. -/
def handleStderrLine (st : HostState) (line : String) : HostState × List HostEffect :=
  hostLog st line

/-- PluginHost.getLogs: returns a copy of the `logs` array, hence the same
list of strings. -/
def getLogs (st : HostState) : List String :=
  st.logs

/-- A response envelope arriving on the child's stdout, as far as the
stdout handler inspects it: its `id` (possibly absent) and its `error`
(the `result` is passed through opaquely to the resolver). -/
structure ChildResponse where
  id : Option JsonId := none
  error : Option JsonRpcError := none
deriving DecidableEq, Repr

/-- One physical line on the child's stdout. -/
inductive StdoutLine where
  | parseFail (raw : String)
  | parsed (resp : ChildResponse)

/-- The stdout reader attached in `spawnProcess`. A line that fails to
parse is logged. A parsed response is looked up in `pending` by its `id`:
if found, the entry is deleted, its timer cleared, and the request is
rejected with `error.message` or resolved with `result`; if not found
(including an absent `id`, since the map holds only allocated ids),
nothing at all happens. -/
def handleStdoutLine (st : HostState) : StdoutLine → HostState × List HostEffect
  | StdoutLine.parseFail raw =>
      hostLog st ("[host] Failed to parse plugin stdout: " ++ raw)
  | StdoutLine.parsed resp =>
      match resp.id with
      | some i =>
          if st.pending.contains i then
            let st' := { st with pending := st.pending.erase i }
            match resp.error with
            | some e => (st', [HostEffect.rejectPending i e.message])
            | none => (st', [HostEffect.resolvePending i])
          else (st, [])
      | none => (st, [])

/-- Template-literal rendering of the exit `code` (which is
`number | null`). -/
def exitCodeText : Option Int → String
  | some n => toString n
  | none => "null"

/-- The rejections of all pending requests performed at the top of the
exit handler. -/
def exitRejectEffects (st : HostState) (code : Option Int) : List HostEffect :=
  st.pending.map (fun i =>
    HostEffect.rejectPending i ("Plugin process exited with code " ++ exitCodeText code))

def restartLogMsg (code : Option Int) (attempt maxR : Nat) : String :=
  "[host] Plugin exited unexpectedly (code " ++ exitCodeText code ++
    "), restarting (attempt " ++ toString attempt ++ "/" ++ toString maxR ++ ")..."

/-- The `exit` handler installed in `spawnProcess` (the claims' cited
lines): invoke `onExit`, reject and clear every pending request, then
 - if not `stopped` and `restartCount < maxRestarts`: increment the
   counter, invoke `onRestart`, log, and (after the restart delay) call
   `spawnProcess` again; if that call succeeds (`spawnOk`) and a
   configuration was stored, replay it via `configure` (which re-stores
   the same params); if the spawn fails, log the failure;
 - else if not `stopped` and the counter has reached `maxRestarts`:
   invoke `onMaxRestartsExceeded` and log;
 - else (explicitly stopped): nothing further. -/
def handleChildExit (st : HostState) (code : Option Int) (spawnOk : Bool) :
    HostState × List HostEffect :=
  let base := HostEffect.onExitCb code :: exitRejectEffects st code
  let st1 : HostState := { st with pending := [] }
  if st1.stopped = false ∧ st1.restartCount < st1.opts.maxRestarts then
    let n := st1.restartCount + 1
    let msg := restartLogMsg code n st1.opts.maxRestarts
    let st2 : HostState := { st1 with restartCount := n, logs := st1.logs ++ [msg] }
    let restartEffs := [HostEffect.onRestartCb n, HostEffect.onLogCb msg, HostEffect.respawn]
    if spawnOk then
      match st2.lastConfigureParams with
      | some p => (st2, base ++ restartEffs ++ [HostEffect.replayConfigure p])
      | none => (st2, base ++ restartEffs)
    else
      let failMsg := "[host] Restart failed"
      ({ st2 with logs := st2.logs ++ [failMsg] },
        base ++ restartEffs ++ [HostEffect.onLogCb failMsg])
  else if st1.stopped = false ∧ st1.opts.maxRestarts ≤ st1.restartCount then
    let msg := "[host] Max restarts (" ++ toString st1.opts.maxRestarts ++ ") exceeded"
    ({ st1 with logs := st1.logs ++ [msg] },
      base ++ [HostEffect.onMaxRestartsExceededCb, HostEffect.onLogCb msg])
  else (st1, base)

/-- A sequence of child exits (each tagged with its exit code and whether
the subsequent spawn attempt succeeds), folded through the exit handler,
accumulating all effects. -/
def runExitSeq (st : HostState) : List (Option Int × Bool) → HostState × List HostEffect
  | [] => (st, [])
  | e :: rest =>
      let r := handleChildExit st e.1 e.2
      let r' := runExitSeq r.1 rest
      (r'.1, r.2 ++ r'.2)

-- ============================================================================
-- Plugin discovery (discoverPlugins, src/unnamed/part_004)
-- ============================================================================

/-- The `junctionrelay` block of a package.json. Parsed JSON may carry any
`type` string; discovery accepts only `"collector"`. -/
structure PluginManifest where
  type : String
  entry : Option String := none
deriving DecidableEq, Repr

/-- The fields of a parsed package.json that discovery reads. -/
structure PkgJson where
  name : Option String := none
  version : Option String := none
  main : Option String := none
  junctionrelay : Option PluginManifest := none
deriving DecidableEq, Repr

/-- Outcome of probing `<dir>/package.json`: the file does not exist
(`existsSync` is false), reading or `JSON.parse` threw, or it parsed. -/
inductive PkgRead where
  | missing
  | readError
  | ok (pkg : PkgJson)
deriving DecidableEq, Repr

structure DiscoveredPlugin where
  name : String
  version : String
  path : String
  entry : String
  manifest : PluginManifest
deriving DecidableEq, Repr

/-- Models node's `path.basename` on POSIX-style paths: the last
non-empty path component. -/
def basename (p : String) : String :=
  ((p.splitOn "/").filter (fun s => s ≠ "")).getLastD p

/-- Models node's `path.join` for the two-argument uses in discovery. -/
def joinPath (a b : String) : String :=
  a ++ "/" ++ b

/-- tryLoadPlugin: skip on a missing or unreadable/unparsable
package.json; require a `junctionrelay` block with `type == "collector"`;
then build the descriptor with the documented fallbacks
(`name ?? basename`, `version ?? "0.0.0"`,
`entry ?? main ?? "index.ts"`). -/
def tryLoadPlugin (dirPath : String) (r : PkgRead) : Option DiscoveredPlugin :=
  match r with
  | PkgRead.missing => none
  | PkgRead.readError => none
  | PkgRead.ok pkg =>
      match pkg.junctionrelay with
      | none => none
      | some m =>
          if m.type = "collector" then
            some { name := pkg.name.getD (basename dirPath),
                   version := pkg.version.getD "0.0.0",
                   path := dirPath,
                   entry := m.entry.getD (pkg.main.getD "index.ts"),
                   manifest := m }
          else none

/-- A directory entry of a scanned location, with the outcome of probing
its package.json. -/
structure DirEntry where
  name : String
  pkg : PkgRead
deriving DecidableEq, Repr

/-- A directory as the scanner sees it: whether `existsSync` reports it
present, and its listing — `none` models `statSync` throwing or the path
not being a directory, in which case `safeReaddir` yields `[]`. -/
structure FsDir where
  present : Bool := false
  entries : Option (List DirEntry) := none
deriving DecidableEq, Repr

/-- safeReaddir: the listing, or `[]` on any error or non-directory. -/
def safeReaddir (d : FsDir) : List DirEntry :=
  d.entries.getD []

/-- The filesystem neighbourhood `discoverPlugins` probes: the resolved
root, `<root>/node_modules/@junctionrelay`, and `<root>/node_modules`. -/
structure PluginsRoot where
  rootPath : String
  root : FsDir := {}
  scopedDir : FsDir := {}
  nodeModulesDir : FsDir := {}

/-- discoverPlugins: scan the three locations in order — every immediate
subdirectory of the root; every `plugin-*` entry of
`node_modules/@junctionrelay`; every `junctionrelay-plugin-*` entry of
`node_modules` — loading each candidate with `tryLoadPlugin` and keeping
the successes in scan order. -/
def discoverPlugins (fsys : PluginsRoot) : List DiscoveredPlugin :=
  (if fsys.root.present then
     (safeReaddir fsys.root).filterMap
       (fun e => tryLoadPlugin (joinPath fsys.rootPath e.name) e.pkg)
   else []) ++
  (if fsys.scopedDir.present then
     ((safeReaddir fsys.scopedDir).filter
        (fun e => e.name.startsWith "plugin-")).filterMap
       (fun e => tryLoadPlugin
          (joinPath (joinPath (joinPath fsys.rootPath "node_modules") "@junctionrelay") e.name)
          e.pkg)
   else []) ++
  (if fsys.nodeModulesDir.present then
     ((safeReaddir fsys.nodeModulesDir).filter
        (fun e => e.name.startsWith "junctionrelay-plugin-")).filterMap
       (fun e => tryLoadPlugin
          (joinPath (joinPath fsys.rootPath "node_modules") e.name)
          e.pkg)
   else [])

/-- The candidate directories of a scan, in scan order, each paired with
its package.json probe outcome. `discoverPlugins` is exactly
`tryLoadPlugin` filter-mapped over this list. -/
def candidates (fsys : PluginsRoot) : List (String × PkgRead) :=
  (if fsys.root.present then
     (safeReaddir fsys.root).map
       (fun e => (joinPath fsys.rootPath e.name, e.pkg))
   else []) ++
  (if fsys.scopedDir.present then
     ((safeReaddir fsys.scopedDir).filter
        (fun e => e.name.startsWith "plugin-")).map
       (fun e => (joinPath (joinPath (joinPath fsys.rootPath "node_modules") "@junctionrelay") e.name,
                  e.pkg))
   else []) ++
  (if fsys.nodeModulesDir.present then
     ((safeReaddir fsys.nodeModulesDir).filter
        (fun e => e.name.startsWith "junctionrelay-plugin-")).map
       (fun e => (joinPath (joinPath fsys.rootPath "node_modules") e.name, e.pkg))
   else [])

-- ============================================================================
-- Sample data (from the repository's test fixtures)
-- ============================================================================

/-- The TestPlugin fixture metadata used by the SDK integration tests. -/
def sampleMetadata : CollectorMetadata :=
  { collectorName := "TestPlugin",
    displayName := "Test Plugin",
    description := "A test fixture plugin",
    category := "Test",
    emoji := "T",
    fields := { requiresUrl := false, requiresAccessToken := false },
    defaults := { name := "Test Plugin", pollRate := some 1000, sendRate := some 1000 },
    setupInstructions := [] }

/-- The first sensor of the fixture plugin, in the current protocol shape:
keyed by `uniqueSensorKey`, with no `externalId` field. -/
def sensorA : Sensor :=
  { uniqueSensorKey := "test_sensor_1",
    name := "Test Sensor 1",
    value := "42",
    unit := "units",
    category := "Test",
    decimalPlaces := 0,
    sensorType := "Test",
    componentName := "test-component",
    sensorTag := "test_1" }

/-- A plugin config with no handlers at all. -/
def cfg0 : CollectorPluginConfig :=
  { metadata := sampleMetadata }

/-- A plugin config with only a `fetchSensors` handler (the fixture used
by the auto-filter integration test), returning `sensorA`. -/
def cfgFetchOnly : CollectorPluginConfig :=
  { metadata := sampleMetadata,
    fetchSensors := some (fun _ => Except.ok { sensors := [sensorA] }) }

/-- A request envelope for `healthCheck` with id 5. -/
def reqHealth : JsonRpcRequestEnv :=
  { method := some "healthCheck", id := some (JsonId.num 5) }

/-- A freshly constructed supervisor state (all option defaults). -/
def hostFresh : HostState := {}

/-- A supervisor state whose restart counter has reached the default
`maxRestarts` of 3. -/
def hostMaxed : HostState := { restartCount := 3 }

/-- Stored configure params `{ collectorId: 42 }`. -/
def pConf : RawParams := { collectorId := some 42 }

/-- A supervisor state with a stored configuration. -/
def hostConfigured : HostState := { lastConfigureParams := some pConf }

/-- A supervisor state with one in-flight request, id 1. -/
def hostPending : HostState := { pending := [JsonId.num 1] }

/-- The valid plugin package of the discovery test fixture. -/
def goodPkg : PkgJson :=
  { name := some "@junctionrelay/plugin-valid",
    version := some "1.0.0",
    main := some "index.js",
    junctionrelay := some { type := "collector", entry := some "index.js" } }

/-- A scan root where none of the three probed locations exists. -/
def absentRoot : PluginsRoot := { rootPath := "/tmp/does-not-exist-abc123" }

-- ============================================================================
-- Theorems — plugin-side dispatcher
-- ============================================================================

/-- C1: the `fetchSelectedSensors` automatic fallback does NOT filter on
`uniqueSensorKey`. For the auto-filter scenario of the SDK integration
test — no `fetchSelectedSensors` handler, a `fetchSensors` handler
returning one protocol-shaped sensor whose `uniqueSensorKey` is
requested in `params.sensorIds` — the dispatcher returns an empty sensor
list (the code filters on the legacy `externalId` field, absent from the
protocol's `SensorResult`), while the spec-modelled filter returns the
requested sensor. -/
theorem fetchSelected_fallback_drops_requested_sensor :
    (dispatch cfgFetchOnly initialCurrentConfig 0 (some "fetchSelectedSensors")
        { sensorIds := some ["test_sensor_1"] }).1
      = Except.ok (JsValue.sensorsResult [])
    ∧ specSelectedSensors [sensorA] ["test_sensor_1"] = [sensorA]
    ∧ sensorA.uniqueSensorKey = "test_sensor_1"
    ∧ sensorA.externalId = none
    ∧ ([sensorA] : List Sensor) ≠ [] := by
  refine ⟨rfl, ?_, rfl, rfl, by simp⟩
  · decide

/-- C2 counterexample: an envelope that parses as JSON but lacks both
`jsonrpc` and `id` (method `getMetadata`) is answered with a SUCCESS
envelope (`error` is `none`), not an invalid-request error; and an
envelope lacking all of `jsonrpc`, `method` and `id` is answered with
method-not-found −32601, which differs from −32600. -/
theorem no_invalid_request_check_cex :
    (handleLine cfg0 initialCurrentConfig 0
        (InputLine.parsed { method := some "getMetadata" })).2
      = [{ id := none, result := some (JsValue.metadata sampleMetadata), error := none }]
    ∧ (handleLine cfg0 initialCurrentConfig 0 (InputLine.parsed {})).2
      = [{ id := none, result := none,
           error := some { code := JSON_RPC_ERRORS.METHOD_NOT_FOUND,
                           message := "Method not found: undefined" } }]
    ∧ JSON_RPC_ERRORS.METHOD_NOT_FOUND ≠ JSON_RPC_ERRORS.INVALID_REQUEST := by
  refine ⟨rfl, rfl, by decide⟩

/-- C2 (amended): the dispatcher performs no envelope validation. An
envelope lacking `method` is answered with method-not-found (−32601,
message rendering the missing method as `undefined`), echoing the
request's possibly-absent `id`; an envelope lacking `jsonrpc` or `id`
(method `getMetadata`) is dispatched normally. -/
theorem missing_method_is_method_not_found (cfg : CollectorPluginConfig)
    (current : RawParams) (uptime : Nat) (req : JsonRpcRequestEnv) :
    (req.method = none →
      handleLine cfg current uptime (InputLine.parsed req)
        = (current,
           [{ id := req.id,
              error := some { code := JSON_RPC_ERRORS.METHOD_NOT_FOUND,
                              message := "Method not found: undefined" } }]))
    ∧ (req.method = some "getMetadata" →
      handleLine cfg current uptime (InputLine.parsed req)
        = (current, [{ id := req.id, result := some (JsValue.metadata cfg.metadata) }])) := by
  obtain ⟨j, m, p, i⟩ := req
  refine ⟨fun h => ?_, fun h => ?_⟩
  · cases m with
    | none => rfl
    | some s => simp at h
  · cases m with
    | none => simp at h
    | some s =>
        have hs : s = "getMetadata" := by simpa using h
        subst hs
        rfl

/-- C2 witness: the amended theorem at the concrete all-fields-missing
envelope. -/
theorem missing_method_is_method_not_found_witness :
    handleLine cfg0 initialCurrentConfig 0 (InputLine.parsed {})
      = (initialCurrentConfig,
         [{ id := none,
            error := some { code := JSON_RPC_ERRORS.METHOD_NOT_FOUND,
                            message := "Method not found: undefined" } }]) :=
  (missing_method_is_method_not_found cfg0 initialCurrentConfig 0 {}).1 rfl

/-- C3: for every parsed envelope whose `method` is one of the eight known
methods, `handleLine` writes exactly one response, carrying the request's
`id`, whether the routed handler returns `ok` or `error`. (Stated as: the
ids of the written responses form exactly the one-element list
`[req.id]`.) -/
theorem one_response_per_recognized_request (cfg : CollectorPluginConfig)
    (current : RawParams) (uptime : Nat) (req : JsonRpcRequestEnv)
    (_h : req.method ∈ knownMethods.map Option.some) :
    (handleLine cfg current uptime (InputLine.parsed req)).2.map JsonRpcResponseEnv.id
      = [req.id] := by
  rcases hd : dispatch cfg current uptime req.method (req.params.getD {}) with ⟨res, c⟩
  cases res with
  | ok v => simp [handleLine, hd]
  | error e => simp [handleLine, hd]

/-- C3 witness: the theorem at a concrete `healthCheck` request with
id 5 and the handlerless config. -/
theorem one_response_per_recognized_request_witness :
    (handleLine cfg0 initialCurrentConfig 0 (InputLine.parsed reqHealth)).2.map
        JsonRpcResponseEnv.id
      = [some (JsonId.num 5)] :=
  one_response_per_recognized_request cfg0 initialCurrentConfig 0 reqHealth
    (by simp [knownMethods, reqHealth])

/-- C4: a line that fails to parse as JSON is answered with exactly one
response whose `id` is 0 and whose error is code −32700, message
"Parse error"; the handler returns normally with the dispatcher state
unchanged, so the loop continues. -/
theorem parse_failure_reply (cfg : CollectorPluginConfig) (current : RawParams)
    (uptime : Nat) :
    handleLine cfg current uptime InputLine.parseFail
      = (current,
         [{ id := some (JsonId.num 0),
            error := some { code := JSON_RPC_ERRORS.PARSE_ERROR,
                            message := "Parse error" } }])
    ∧ JSON_RPC_ERRORS.PARSE_ERROR = -32700 :=
  ⟨rfl, rfl⟩

-- ============================================================================
-- Theorems — host-side supervisor
-- ============================================================================

theorem handleChildExit_opts_eq (st : HostState) (code : Option Int) (spawnOk : Bool) :
    (handleChildExit st code spawnOk).1.opts = st.opts := by
  obtain ⟨stopped, count, last, pend, lg, o⟩ := st
  cases stopped with
  | false =>
      by_cases h : count < o.maxRestarts
      · cases spawnOk with
        | true => cases last <;> simp [handleChildExit, h]
        | false => simp [handleChildExit, h]
      · simp [handleChildExit, h, not_lt.mp h]
  | true => simp [handleChildExit]

theorem handleChildExit_restartCount_le (st : HostState) (code : Option Int)
    (spawnOk : Bool) :
    st.restartCount ≤ (handleChildExit st code spawnOk).1.restartCount := by
  obtain ⟨stopped, count, last, pend, lg, o⟩ := st
  cases stopped with
  | false =>
      by_cases h : count < o.maxRestarts
      · cases spawnOk with
        | true => cases last <;> simp [handleChildExit, h]
        | false => simp [handleChildExit, h]
      · simp [handleChildExit, h, not_lt.mp h]
  | true => simp [handleChildExit]

theorem respawn_not_in_handleChildExit (st : HostState) (code : Option Int)
    (spawnOk : Bool) (h : st.opts.maxRestarts ≤ st.restartCount) :
    HostEffect.respawn ∉ (handleChildExit st code spawnOk).2 := by
  obtain ⟨stopped, count, last, pend, lg, o⟩ := st
  have hnot : ¬ count < o.maxRestarts := not_lt.mpr h
  cases stopped with
  | false => simp [handleChildExit, hnot, h, exitRejectEffects]
  | true => simp [handleChildExit, exitRejectEffects]

theorem respawn_mem_handleChildExit_iff (st : HostState) (code : Option Int)
    (spawnOk : Bool) :
    HostEffect.respawn ∈ (handleChildExit st code spawnOk).2 ↔
      st.stopped = false ∧ st.restartCount < st.opts.maxRestarts := by
  obtain ⟨stopped, count, last, pend, lg, o⟩ := st
  cases stopped with
  | false =>
      by_cases h : count < o.maxRestarts
      · cases spawnOk with
        | true => cases last <;> simp [handleChildExit, h, exitRejectEffects]
        | false => simp [handleChildExit, h, exitRejectEffects]
      · simp [handleChildExit, h, not_lt.mp h, exitRejectEffects]
  | true => simp [handleChildExit, exitRejectEffects]

theorem runExitSeq_no_respawn (st : HostState) (evs : List (Option Int × Bool))
    (h : st.opts.maxRestarts ≤ st.restartCount) :
    HostEffect.respawn ∉ (runExitSeq st evs).2 := by
  induction evs generalizing st with
  | nil => simp [runExitSeq]
  | cons e rest ih =>
      have h1 : HostEffect.respawn ∉ (handleChildExit st e.1 e.2).2 :=
        respawn_not_in_handleChildExit st e.1 e.2 h
      have h2 : HostEffect.respawn ∉ (runExitSeq (handleChildExit st e.1 e.2).1 rest).2 := by
        apply ih
        rw [handleChildExit_opts_eq]
        exact le_trans h (handleChildExit_restartCount_le st e.1 e.2)
      simp only [runExitSeq, List.mem_append]
      rintro (hc | hc)
      exacts [h1 hc, h2 hc]

/-- C5: whenever an unexpected child exit triggers the restart branch
(`stopped` not set, counter below the limit) and the fresh spawn
succeeds, with a previously stored configuration `p`, the exit handler's
effects end with the respawn followed immediately by replaying
`configure` with exactly `p`, and `p` stays stored for later restarts. -/
theorem configure_replayed_on_restart (st : HostState) (code : Option Int)
    (p : RawParams) (h1 : st.stopped = false)
    (h2 : st.restartCount < st.opts.maxRestarts)
    (h3 : st.lastConfigureParams = some p) :
    (handleChildExit st code true).2
      = (HostEffect.onExitCb code :: exitRejectEffects st code)
        ++ [HostEffect.onRestartCb (st.restartCount + 1),
            HostEffect.onLogCb (restartLogMsg code (st.restartCount + 1) st.opts.maxRestarts),
            HostEffect.respawn, HostEffect.replayConfigure p]
    ∧ (handleChildExit st code true).1.lastConfigureParams = some p := by
  obtain ⟨stopped, count, last, pend, lg, o⟩ := st
  subst h1
  subst h3
  simp [handleChildExit, h2, exitRejectEffects]

/-- C5 witness: the theorem at a fresh-default supervisor state that has
stored `configure({ collectorId: 42 })`. -/
theorem configure_replayed_on_restart_witness :
    (handleChildExit hostConfigured none true).2
      = (HostEffect.onExitCb none :: exitRejectEffects hostConfigured none)
        ++ [HostEffect.onRestartCb 1,
            HostEffect.onLogCb (restartLogMsg none 1 3),
            HostEffect.respawn, HostEffect.replayConfigure pConf]
    ∧ (handleChildExit hostConfigured none true).1.lastConfigureParams = some pConf :=
  configure_replayed_on_restart hostConfigured none pConf rfl (by decide) rfl

/-- C6: an unexpected exit produces a respawn exactly when `stop()` has
not been called and `restartCount < maxRestarts`; each such respawn
increments `restartCount` and notifies `onRestart`; once the counter has
reached `maxRestarts` (with `stop()` not called) the handler fires
`onMaxRestartsExceeded` and does not respawn; and from any state whose
counter has reached the limit, no sequence of further exits ever
produces a respawn again. The constructor default for `maxRestarts`
is 3. -/
theorem restart_policy (st : HostState) (code : Option Int) (spawnOk : Bool)
    (evs : List (Option Int × Bool)) :
    (HostEffect.respawn ∈ (handleChildExit st code spawnOk).2 ↔
       st.stopped = false ∧ st.restartCount < st.opts.maxRestarts)
    ∧ (st.stopped = false → st.restartCount < st.opts.maxRestarts →
        (handleChildExit st code spawnOk).1.restartCount = st.restartCount + 1
        ∧ HostEffect.onRestartCb (st.restartCount + 1) ∈ (handleChildExit st code spawnOk).2)
    ∧ (st.stopped = false → st.opts.maxRestarts ≤ st.restartCount →
        HostEffect.onMaxRestartsExceededCb ∈ (handleChildExit st code spawnOk).2
        ∧ HostEffect.respawn ∉ (handleChildExit st code spawnOk).2)
    ∧ (st.opts.maxRestarts ≤ st.restartCount →
        HostEffect.respawn ∉ (runExitSeq st evs).2)
    ∧ (resolveOptions none none none).maxRestarts = 3 := by
  refine ⟨respawn_mem_handleChildExit_iff st code spawnOk, ?_, ?_,
    fun h => runExitSeq_no_respawn st evs h, rfl⟩
  · intro h1 h2
    obtain ⟨stopped, count, last, pend, lg, o⟩ := st
    subst h1
    cases spawnOk with
    | true => cases last <;> simp [handleChildExit, h2, exitRejectEffects]
    | false => simp [handleChildExit, h2, exitRejectEffects]
  · intro h1 h2
    refine ⟨?_, respawn_not_in_handleChildExit st code spawnOk h2⟩
    obtain ⟨stopped, count, last, pend, lg, o⟩ := st
    subst h1
    have hnot : ¬ count < o.maxRestarts := not_lt.mpr h2
    simp [handleChildExit, hnot, h2, exitRejectEffects]

/-- C6 witness: the theorem at a fresh state (respawn happens) and at a
state whose counter has reached the default limit of 3 (no respawn,
`onMaxRestartsExceeded` fires, and a further exit still never
respawns). -/
theorem restart_policy_witness :
    HostEffect.respawn ∈ (handleChildExit hostFresh none true).2
    ∧ HostEffect.onMaxRestartsExceededCb ∈ (handleChildExit hostMaxed none true).2
    ∧ HostEffect.respawn ∉ (runExitSeq hostMaxed [(none, true)]).2 :=
  ⟨(restart_policy hostFresh none true []).1.mpr ⟨rfl, by decide⟩,
   ((restart_policy hostMaxed none true []).2.2.1 rfl (by decide)).1,
   (restart_policy hostMaxed none true [(none, true)]).2.2.2.1 (by decide)⟩

/-- C7 counterexample: a line `hello` arriving on the child's standard
error is appended to the logs and delivered to `onLog` verbatim — it is
NOT prepended with a `[host]`-style tag (the delivered string `hello`
differs from `[host] hello`). -/
theorem stderr_line_not_tagged :
    handleStderrLine hostFresh "hello"
      = ({ hostFresh with logs := ["hello"] }, [HostEffect.onLogCb "hello"])
    ∧ ("hello" : String) ≠ "[host] hello" :=
  ⟨rfl, by decide⟩

/-- C7 (amended): every line received on the child's standard error is
delivered unchanged (no tag prepended) to the user-supplied `onLog`
callback and appended unchanged to the in-memory (unbounded) log list;
`getLogs()` then returns the previous logs with the line appended. The
readiness line, being a stderr line, flows through this same path. -/
theorem stderr_line_logged_verbatim (st : HostState) (line : String) :
    handleStderrLine st line
      = ({ st with logs := st.logs ++ [line] }, [HostEffect.onLogCb line])
    ∧ getLogs (handleStderrLine st line).1 = getLogs st ++ [line] :=
  ⟨rfl, rfl⟩

/-- C10: a parsed response line whose `id` has no entry in the pending
map (duplicate, late, or unsolicited, including an absent id) is
silently ignored: the state — pending map, logs, everything — is
unchanged and no effect (no resolution, rejection, callback, or log) is
produced. -/
theorem unsolicited_response_ignored (st : HostState) (resp : ChildResponse)
    (h : ∀ i, resp.id = some i → st.pending.contains i = false) :
    handleStdoutLine st (StdoutLine.parsed resp) = (st, []) := by
  cases hid : resp.id with
  | none => simp [handleStdoutLine, hid]
  | some i =>
      simp only [handleStdoutLine, hid]
      rw [if_neg]
      simpa using h i hid

/-- C10 witness: the theorem at a state with pending id 1 and a response
carrying unknown id 2. -/
theorem unsolicited_response_ignored_witness :
    handleStdoutLine hostPending (StdoutLine.parsed { id := some (JsonId.num 2) })
      = (hostPending, []) :=
  unsolicited_response_ignored hostPending { id := some (JsonId.num 2) }
    (by intro i hi; cases hi; decide)

-- ============================================================================
-- Theorems — plugin discovery
-- ============================================================================

theorem tryLoadPlugin_isSome_iff (dir : String) (r : PkgRead) :
    (tryLoadPlugin dir r).isSome = true ↔
      ∃ p m, r = PkgRead.ok p ∧ p.junctionrelay = some m ∧ m.type = "collector" := by
  cases r with
  | missing => simp [tryLoadPlugin]
  | readError => simp [tryLoadPlugin]
  | ok pkg =>
      cases hj : pkg.junctionrelay with
      | none => simp [tryLoadPlugin, hj]
      | some m =>
          by_cases ht : m.type = "collector"
          · simp [tryLoadPlugin, hj, ht]
          · simp [tryLoadPlugin, hj, ht]

theorem tryLoadPlugin_fields (dir : String) (pkg : PkgJson) (m : PluginManifest)
    (h1 : pkg.junctionrelay = some m) (h2 : m.type = "collector") :
    tryLoadPlugin dir (PkgRead.ok pkg)
      = some { name := pkg.name.getD (basename dir),
               version := pkg.version.getD "0.0.0",
               path := dir,
               entry := m.entry.getD (pkg.main.getD "index.ts"),
               manifest := m } := by
  simp [tryLoadPlugin, h1, h2]

theorem discoverPlugins_eq_filterMap (fsys : PluginsRoot) :
    discoverPlugins fsys
      = (candidates fsys).filterMap (fun c => tryLoadPlugin c.1 c.2) := by
  obtain ⟨rp, root, sc, nm⟩ := fsys
  cases hr : root.present <;> cases hs : sc.present <;> cases hn : nm.present <;>
    simp only [discoverPlugins, candidates, hr, hs, hn, if_true, if_false,
      List.filterMap_append, List.filterMap_map] <;> rfl

theorem discoverPlugins_absent_root (fsys : PluginsRoot)
    (h1 : fsys.root.present = false ∨ fsys.root.entries = none)
    (h2 : fsys.scopedDir.present = false) (h3 : fsys.nodeModulesDir.present = false) :
    discoverPlugins fsys = [] := by
  rcases h1 with h1 | h1 <;> simp [discoverPlugins, h1, h2, h3, safeReaddir]

/-- C8: `tryLoadPlugin` yields a descriptor exactly for a candidate whose
package.json parses (`PkgRead.ok`) and has a `junctionrelay` block with
`type == "collector"`; the descriptor's fields are built with the
documented fallbacks (`name` from the package else the directory
basename, `version` else `"0.0.0"`, `path` the candidate directory,
`entry` from the manifest else `main` else `"index.ts"`, and the raw
manifest block); `discoverPlugins` is exactly this loader filter-mapped
over the candidate directories of the three scanned locations (so
filesystem and parse errors are silently skipped); and a non-existent or
non-directory root (whose `node_modules` sublocations then do not exist
either) yields the empty list, never an error. -/
theorem discovery_returns_exactly_valid_collectors (fsys : PluginsRoot)
    (dir : String) (r : PkgRead) (pkg : PkgJson) (m : PluginManifest) :
    ((tryLoadPlugin dir r).isSome = true ↔
       ∃ p mm, r = PkgRead.ok p ∧ p.junctionrelay = some mm ∧ mm.type = "collector")
    ∧ (pkg.junctionrelay = some m → m.type = "collector" →
        tryLoadPlugin dir (PkgRead.ok pkg)
          = some { name := pkg.name.getD (basename dir),
                   version := pkg.version.getD "0.0.0",
                   path := dir,
                   entry := m.entry.getD (pkg.main.getD "index.ts"),
                   manifest := m })
    ∧ discoverPlugins fsys = (candidates fsys).filterMap (fun c => tryLoadPlugin c.1 c.2)
    ∧ ((fsys.root.present = false ∨ fsys.root.entries = none) →
        fsys.scopedDir.present = false → fsys.nodeModulesDir.present = false →
        discoverPlugins fsys = []) :=
  ⟨tryLoadPlugin_isSome_iff dir r,
   fun h1 h2 => tryLoadPlugin_fields dir pkg m h1 h2,
   discoverPlugins_eq_filterMap fsys,
   fun h1 h2 h3 => discoverPlugins_absent_root fsys h1 h2 h3⟩

/-- C8 witness: the theorem at the discovery-test fixture package (all
descriptor fields from the package) and at a wholly absent root (empty
result). -/
theorem discovery_returns_exactly_valid_collectors_witness :
    tryLoadPlugin "/plugins/my-plugin" (PkgRead.ok goodPkg)
      = some { name := "@junctionrelay/plugin-valid", version := "1.0.0",
               path := "/plugins/my-plugin", entry := "index.js",
               manifest := { type := "collector", entry := some "index.js" } }
    ∧ discoverPlugins absentRoot = [] :=
  ⟨(discovery_returns_exactly_valid_collectors absentRoot "/plugins/my-plugin"
      (PkgRead.ok goodPkg) goodPkg { type := "collector", entry := some "index.js" }).2.1
      rfl rfl,
   (discovery_returns_exactly_valid_collectors absentRoot "x" PkgRead.missing {}
      { type := "collector" }).2.2.2 (Or.inl rfl) rfl rfl⟩
